import Mathlib

/-!
Verification of the RMM repository (src/Code.py and src/Code3.py) against its
natural-language specification.

Modelling conventions (shallow embedding):
* Python floats are modelled as exact rationals (`ℚ`); `round(x, 2)` is modelled
  as exact round-half-to-even on rationals (`roundHalfEven`, `round2`).
* `random.uniform(a, b)` is modelled as `uniform a b u = a + (b - a) * u` where
  `u` is a raw random draw; a legitimate draw satisfies `0 ≤ u ≤ 1`.
  `random.random()` draws are passed through directly as rationals in `[0, 1)`.
  All random draws are explicit parameters, so "for every random draw" becomes
  universal quantification and counterexamples exhibit concrete draw values.
* Python dicts keyed by strings are association lists (`alookup` / `aupdate`:
  `aupdate` replaces the first binding of the key, else appends).
* `pandas.Series.std()` (sample standard deviation, ddof = 1) needs a real
  square root, so the `mischievous_shift` attribute lives in `ℝ`; everything
  else is rational and executable.
* Printing is modelled by returning a flag: `run_rmm_cycle` returns `true` in
  its second component exactly when it printed "not found" (and did nothing),
  and `add_memory` returns `true` exactly when it printed a duplicate warning.
* `Code1` embeds `src/Code.py`; `Code3` embeds the first engine of
  `src/Code3.py` (lines 13-238; the second, "code 4.py", copy in that file is
  a near-duplicate differing only in the re-evaluation trigger).
-/

/-- Association-list lookup, modelling Python `dict.get` for string keys. -/
def alookup {β : Type} : List (String × β) → String → Option β
  | [], _ => none
  | (k', v) :: t, k => if k' = k then some v else alookup t k

/-- Association-list update, modelling Python `dict[k] = v`: replace the first
binding of `k` if present, otherwise append a new binding. -/
def aupdate {β : Type} : List (String × β) → String → β → List (String × β)
  | [], k, v => [(k, v)]
  | (k', v') :: t, k, v => if k' = k then (k, v) :: t else (k', v') :: aupdate t k v

/-- `random.uniform a b` applied to a raw draw `u`: `a + (b - a) * u`.
A legitimate draw has `0 ≤ u ≤ 1`, which puts the result in `[a, b]`. -/
def uniform (a b u : ℚ) : ℚ := a + (b - a) * u

/-- `max(0.0, min(1.0, q))` from `ConceptualLanguageAI_NN.predict`. -/
def clamp01 (q : ℚ) : ℚ := max 0 (min 1 q)

/-- Round-half-to-even to the nearest integer, the rounding used by Python's
built-in `round`. -/
def roundHalfEven (q : ℚ) : ℤ :=
  if q - ⌊q⌋ < 1/2 then ⌊q⌋
  else if 1/2 < q - ⌊q⌋ then ⌊q⌋ + 1
  else if 2 ∣ ⌊q⌋ then ⌊q⌋ else ⌊q⌋ + 1

/-- Python `round(q, 2)`: round to two decimal places. -/
def round2 (q : ℚ) : ℚ := (roundHalfEven (100 * q) : ℚ) / 100

/-- Boolean list-prefix test (auxiliary for the substring test). -/
def prefixMatch {α : Type} [DecidableEq α] : List α → List α → Bool
  | [], _ => true
  | _, [] => false
  | a :: l₁, b :: l₂ => a = b && prefixMatch l₁ l₂

/-- Boolean list-infix test (auxiliary for the substring test). -/
def infixMatch {α : Type} [DecidableEq α] (p : List α) : List α → Bool
  | [] => prefixMatch p []
  | l@(_ :: t) => prefixMatch p l || infixMatch p t

/-- Python's substring containment `word in text`. -/
def occursIn (word text : String) : Bool := infixMatch word.toList text.toList

/-- ASCII lower-casing of one character (modelling Python `str.lower`, which
the program only applies to ASCII texts). -/
def lowerChar (c : Char) : Char :=
  if 65 ≤ c.toNat ∧ c.toNat ≤ 90 then Char.ofNat (c.toNat + 32) else c

/-- Python `text.lower()`. -/
def lowerStr (s : String) : String := ⟨s.toList.map lowerChar⟩

/-- `sum(values) / len(values)`, the mean used for `agreement_shift`. -/
def mean (xs : List ℚ) : ℚ := xs.sum / (xs.length : ℚ)

/-- Sample variance with `ddof = 1`, as used by `pandas.Series.std`. -/
def sampleVar (xs : List ℚ) : ℚ :=
  (xs.map (fun x => (x - mean xs) ^ 2)).sum / ((xs.length : ℚ) - 1)

/-- `pandas.Series(values).std()`: the sample standard deviation (ddof = 1). -/
noncomputable def pdStd (xs : List ℚ) : ℝ := Real.sqrt ((sampleVar xs : ℚ) : ℝ)

/-- The `EndocannabinoidSystem` class, identical in both source files. -/
structure EndocannabinoidSystem where
  baseline_modulation_strength : ℚ
  current_modulation : ℚ

/-- `EndocannabinoidSystem.__init__`. -/
def EndocannabinoidSystem.create : EndocannabinoidSystem :=
  { baseline_modulation_strength := 0.1, current_modulation := 0.1 }

/-- `EndocannabinoidSystem.get_feedback_signal`: updates `current_modulation`
from the re-evaluation outcome and returns the symbolic signal name. -/
def EndocannabinoidSystem.get_feedback_signal (e : EndocannabinoidSystem)
    (outcome : String) : String × EndocannabinoidSystem :=
  if outcome = "inference_corrected" then
    ("plasticity_enhanced", { e with current_modulation := e.baseline_modulation_strength * 1.5 })
  else if outcome = "dissonance_high" then
    ("processing_needed", { e with current_modulation := e.baseline_modulation_strength * 0.5 })
  else
    ("neutral", { e with current_modulation := e.baseline_modulation_strength })

namespace Code1

/-- The `Memory` class of `src/Code.py`. -/
structure Memory where
  identifier : String
  content : String
  current_inference : String
  initial_valence : ℚ
  current_valence : ℚ
  strength : ℚ
  reprocessing_count : ℕ
  is_adaptive : Bool
  value_alignment_scores : List (String × ℚ)
  agreement_shift : ℚ
  mischievous_shift : ℝ

/-- `Memory.__init__` of `src/Code.py` (Python defaults:
`initial_valence = 0.0`, `strength = 1.0`; callers always pass the valence). -/
def Memory.create (identifier content initial_inference : String)
    (initial_valence strength : ℚ) : Memory :=
  { identifier := identifier
    content := content
    current_inference := initial_inference
    initial_valence := initial_valence
    current_valence := initial_valence
    strength := strength
    reprocessing_count := 0
    is_adaptive := false
    value_alignment_scores := []
    agreement_shift := 0
    mischievous_shift := 0 }

/-- `ConceptualLanguageAI_NN.value_spectrum_keywords`:
`(principle, sin keywords, virtue keywords)`. -/
def value_spectrum_keywords : List (String × List String × List String) :=
  [ ("Pride", ["superior", "arrogant", "boastful"], ["humble", "modest"]),
    ("Envy", ["jealous", "resent"], ["admiration", "contentment"]),
    ("Gluttony", ["excessive", "overeat"], ["temperance", "moderation"]),
    ("Lust", ["desire", "sensual"], ["chastity", "restraint"]),
    ("Anger", ["angry", "furious"], ["patience", "calm"]),
    ("Greed", ["selfish", "hoard"], ["generosity", "altruism"]),
    ("Sloth", ["lazy", "idle"], ["diligence", "zeal"]) ]

/-- `sum(1 for word in kws if word in text)`. -/
def countMatches (kws : List String) (text : String) : ℕ :=
  (kws.filter (fun w => occursIn w text)).length

/-- The per-principle score of `ConceptualLanguageAI_NN.predict`: band draw by
keyword-count case analysis, then jitter, clamp to `[0,1]`, round to 2 dp.
`u` is the raw draw of the band's `random.uniform`, `j` the raw draw of the
jitter `random.uniform(-0.05, 0.05)`. -/
def predictScore (sin_score virtue_score : ℕ) (u j : ℚ) : ℚ :=
  round2 (clamp01
    ((if 0 < sin_score ∧ virtue_score = 0 then uniform 0.7 1 u
      else if 0 < virtue_score ∧ sin_score = 0 then uniform 0 0.3 u
      else if 0 < sin_score ∧ 0 < virtue_score then uniform 0.3 0.7 u
      else uniform 0.35 0.65 u)
      + uniform (-0.05) 0.05 j))

/-- Recursion over the keyword table carrying the principle index, so that the
`i`-th principle uses the raw draws `u i` and `j i`. -/
def predictAux (lowered : String) (u j : ℕ → ℚ) :
    ℕ → List (String × List String × List String) → List (String × ℚ)
  | _, [] => []
  | i, (name, sinK, virK) :: rest =>
    (name, predictScore (countMatches sinK lowered) (countMatches virK lowered) (u i) (j i))
      :: predictAux lowered u j (i + 1) rest

/-- `ConceptualLanguageAI_NN.predict`: lower-case the text, then score every
principle of the fixed keyword table. -/
def predict (text : String) (u j : ℕ → ℚ) : List (String × ℚ) :=
  predictAux (lowerStr text) u j 0 value_spectrum_keywords

/-- `EndocannabinoidSystem.apply_modulation` on a `Code.py` memory:
perturb strength and valence by the current modulation times a bounded
uniform draw, re-clamping strength to `≥ 0.1` and valence to `[-1, 1]`.
`mu`, `mv` are the raw draws of the two `random.uniform` calls. -/
def apply_modulation (e : EndocannabinoidSystem) (m : Memory) (mu mv : ℚ) : Memory :=
  { m with
    strength := max 0.1 (m.strength + e.current_modulation * uniform (-0.1) 0.1 mu)
    current_valence :=
      max (-1) (min 1 (m.current_valence + e.current_modulation * uniform (-0.05) 0.05 mv)) }

/-- The `RMMModel` class of `src/Code.py`. -/
structure RMMModel where
  ecs : EndocannabinoidSystem
  memories : List (String × Memory)

/-- `RMMModel.__init__` of `src/Code.py`. -/
def RMMModel.create : RMMModel := { ecs := EndocannabinoidSystem.create, memories := [] }

/-- `RMMModel.add_memory` of `src/Code.py`: build the memory, score its initial
inference, store it under its identifier (overwriting any existing binding —
the code has no duplicate check). The Boolean is `true` iff a duplicate
warning was printed; `Code.py` never prints one. -/
def add_memory (s : RMMModel) (identifier content inference : String) (valence : ℚ)
    (u j : ℕ → ℚ) : RMMModel × Bool :=
  let memory := Memory.create identifier content inference valence 1
  let memory := { memory with value_alignment_scores := predict inference u j }
  ({ s with memories := aupdate s.memories identifier memory }, false)

/-- The random draws one `run_rmm_cycle` of `Code.py` may consume:
band and jitter draws for the (at most one) `predict` call inside
`reevaluate`, and the two modulation draws of `apply_modulation`. -/
structure CycleDraws where
  u : ℕ → ℚ
  j : ℕ → ℚ
  mu : ℚ
  mv : ℚ

/-- `RMMModel.reevaluate` of `src/Code.py`: flag every principle whose stored
score exceeds 0.75; if any is flagged, replace the inference by
`"Improved perspective: " ++ content` and re-score it (outcome
`inference_corrected`), otherwise leave it unchanged (outcome `no_change`);
finally run the ECS feedback/apply pair. Returns the mutated memory, the
mutated ECS and the outcome. -/
def reevaluate (e : EndocannabinoidSystem) (m : Memory) (d : CycleDraws) :
    Memory × EndocannabinoidSystem × String :=
  let trigger := m.value_alignment_scores.any (fun kv => decide ((0.75 : ℚ) < kv.2))
  let m :=
    if trigger then
      { m with
        current_inference := "Improved perspective: " ++ m.content
        value_alignment_scores := predict ("Improved perspective: " ++ m.content) d.u d.j }
    else m
  let outcome := if trigger then "inference_corrected" else "no_change"
  let e := (e.get_feedback_signal outcome).2
  let m := apply_modulation e m d.mu d.mv
  (m, e, outcome)

/-- `RMMModel.rewrite` of `src/Code.py`. Note: strength is multiplied without
any re-clamping; the valence gets only the one-sided clamp written in the
source. -/
def rewrite (m : Memory) (outcome : String) : Memory :=
  if outcome = "inference_corrected" then
    { m with strength := m.strength * 1.1, current_valence := min 1 (m.current_valence + 0.1) }
  else if outcome = "dissonance_high" then
    { m with strength := m.strength * 0.8, current_valence := max (-1) (m.current_valence - 0.1) }
  else m

/-- `RMMModel.retain` of `src/Code.py`. -/
def retain (m : Memory) : Memory := { m with is_adaptive := true }

/-- The body of `RMMModel.run_rmm_cycle` once the memory is found: increment
the count, snapshot the scores, re-evaluate, store the two shift diagnostics,
rewrite, retain. Returns the final memory and the final ECS. -/
noncomputable def cycleBody (e : EndocannabinoidSystem) (m : Memory) (d : CycleDraws) :
    Memory × EndocannabinoidSystem :=
  let m1 := { m with reprocessing_count := m.reprocessing_count + 1 }
  let old_scores := m1.value_alignment_scores
  let r := reevaluate e m1 d
  let new_scores := r.1.value_alignment_scores
  let m2 :=
    { r.1 with
      agreement_shift := mean (old_scores.map Prod.snd) - mean (new_scores.map Prod.snd)
      mischievous_shift := |pdStd (new_scores.map Prod.snd) - pdStd (old_scores.map Prod.snd)| }
  (retain (rewrite m2 r.2.2), r.2.1)

/-- `RMMModel.run_rmm_cycle` of `src/Code.py`. The Boolean is `true` iff the
"not found" message was printed, in which case nothing is mutated. -/
noncomputable def run_rmm_cycle (s : RMMModel) (identifier : String) (d : CycleDraws) :
    RMMModel × Bool :=
  match alookup s.memories identifier with
  | none => (s, true)
  | some memory =>
    let r := cycleBody s.ecs memory d
    ({ ecs := r.2, memories := aupdate s.memories identifier r.1 }, false)

end Code1

namespace Code3

/-- The `Memory` class of `src/Code3.py` (no score / shift attributes). -/
structure Memory where
  identifier : String
  content : String
  current_inference : String
  initial_valence : ℚ
  current_valence : ℚ
  strength : ℚ
  reprocessing_count : ℕ
  is_adaptive : Bool

/-- `Memory.__init__` of `src/Code3.py` (callers always leave
`strength = 1.0`). -/
def Memory.create (identifier content initial_inference : String)
    (initial_valence strength : ℚ) : Memory :=
  { identifier := identifier
    content := content
    current_inference := initial_inference
    initial_valence := initial_valence
    current_valence := initial_valence
    strength := strength
    reprocessing_count := 0
    is_adaptive := false }

/-- `RMMModel.value_system_principles` of `src/Code3.py`. -/
def value_system_principles : List String := ["Greedy", "Angry", "Affiliational"]

/-- The random draws one `run_rmm_cycle` of `Code3.py` may consume: the three
`random.random()` draws of the per-principle checks, the correction-success
draw, the minor-introspection draw, and the two modulation draws. -/
structure Draws where
  rGreedy : ℚ
  rAngry : ℚ
  rAffil : ℚ
  rFix : ℚ
  rIntro : ℚ
  mu : ℚ
  mv : ℚ

/-- Every draw of a `Draws` record is a legitimate random value in `[0, 1]`. -/
def Draws.Valid (d : Draws) : Prop :=
  (0 ≤ d.rGreedy ∧ d.rGreedy ≤ 1) ∧ (0 ≤ d.rAngry ∧ d.rAngry ≤ 1) ∧
    (0 ≤ d.rAffil ∧ d.rAffil ≤ 1) ∧ (0 ≤ d.rFix ∧ d.rFix ≤ 1) ∧
    (0 ≤ d.rIntro ∧ d.rIntro ≤ 1) ∧ (0 ≤ d.mu ∧ d.mu ≤ 1) ∧ (0 ≤ d.mv ∧ d.mv ≤ 1)

instance (d : Draws) : Decidable d.Valid := by unfold Draws.Valid; infer_instance

/-- `EndocannabinoidSystem.apply_modulation` on a `Code3.py` memory (same
formula as in `Code.py`). -/
def apply_modulation (e : EndocannabinoidSystem) (m : Memory) (mu mv : ℚ) : Memory :=
  { m with
    strength := max 0.1 (m.strength + e.current_modulation * uniform (-0.1) 0.1 mu)
    current_valence :=
      max (-1) (min 1 (m.current_valence + e.current_modulation * uniform (-0.05) 0.05 mv)) }

/-- `RMMModel.reevaluate_memory` of `src/Code3.py` (first engine): flag a
value clash when a principle is in `value_system_principles`, its trigger
keyword occurs in the lower-cased inference, and the associated
`random.random()` draw is below 0.2; on a clash, correction succeeds with the
`rFix < 0.7` draw (outcome `inference_corrected`, inference replaced) and
otherwise fails (outcome `dissonance_high`, inference kept); with no clash the
outcome is `no_change` (with or without the minor-introspection draw firing).
The ECS feedback/apply pair always runs. -/
def reevaluate_memory (e : EndocannabinoidSystem) (m : Memory) (d : Draws) :
    Memory × EndocannabinoidSystem × String :=
  let inf := lowerStr m.current_inference
  let flagGreedy := value_system_principles.contains "Greedy"
    && occursIn "gain" inf && decide (d.rGreedy < 0.2)
  let flagAngry := value_system_principles.contains "Angry"
    && occursIn "upset" inf && decide (d.rAngry < 0.2)
  let flagAffil := value_system_principles.contains "Affiliational"
    && occursIn "alone" inf && decide (d.rAffil < 0.2)
  let anyIssue := flagGreedy || flagAngry || flagAffil
  let (m, outcome) :=
    if anyIssue then
      if d.rFix < 0.7 then
        ({ m with current_inference :=
            "updated interpretation based on value system for " ++ m.content },
          "inference_corrected")
      else (m, "dissonance_high")
    else (m, "no_change")
  let e := (e.get_feedback_signal outcome).2
  let m := apply_modulation e m d.mu d.mv
  (m, e, outcome)

/-- `RMMModel.rewrite_memory` of `src/Code3.py`. Strength is multiplied
without any re-clamping; the valence is clamped to `[-1, 1]`. -/
def rewrite_memory (m : Memory) (outcome : String) : Memory :=
  if outcome = "inference_corrected" ∨ outcome = "plasticity_enhanced" then
    { m with strength := m.strength * 1.1,
             current_valence := max (-1) (min 1 (m.current_valence + 0.1)) }
  else if outcome = "dissonance_high" then
    { m with strength := m.strength * 0.8,
             current_valence := max (-1) (min 1 (m.current_valence - 0.1)) }
  else m

/-- `RMMModel.retain_memory` of `src/Code3.py`. -/
def retain_memory (m : Memory) : Memory := { m with is_adaptive := true }

/-- The `RMMModel` class of `src/Code3.py`. -/
structure RMMModel where
  ecs : EndocannabinoidSystem
  memories : List (String × Memory)

/-- `RMMModel.__init__` of `src/Code3.py`. -/
def RMMModel.create : RMMModel := { ecs := EndocannabinoidSystem.create, memories := [] }

/-- `RMMModel.add_memory` of `src/Code3.py`: warn (Boolean `true`) iff the
identifier already exists, then store a fresh memory under it either way. -/
def add_memory (s : RMMModel) (identifier content initial_inference : String)
    (initial_valence : ℚ) : RMMModel × Bool :=
  let warned := (alookup s.memories identifier).isSome
  let memory := Memory.create identifier content initial_inference initial_valence 1
  ({ s with memories := aupdate s.memories identifier memory }, warned)

/-- `RMMModel.run_rmm_cycle` of `src/Code3.py`: reactivate (lookup + count
increment), re-evaluate, rewrite, retain. The Boolean is `true` iff the memory
was not found, in which case nothing is mutated. -/
def run_rmm_cycle (s : RMMModel) (memory_id : String) (d : Draws) : RMMModel × Bool :=
  match alookup s.memories memory_id with
  | none => (s, true)
  | some m =>
    let m := { m with reprocessing_count := m.reprocessing_count + 1 }
    let r := reevaluate_memory s.ecs m d
    let m := retain_memory (rewrite_memory r.1 r.2.2)
    ({ ecs := r.2.1, memories := aupdate s.memories memory_id m }, false)

end Code3

/-! ### Concrete fixtures used by witnesses and counterexamples -/

/-- A constant raw-draw stream; `uniform a b (1/2)` is the midpoint of `[a,b]`. -/
def halfDraws : ℕ → ℚ := fun _ => 1/2

/-- Concrete mid-point cycle draws for the `Code.py` engine. -/
def midCycleDraws : Code1.CycleDraws :=
  { u := halfDraws, j := halfDraws, mu := 1/2, mv := 1/2 }

/-- Concrete draws forcing the `Code3.py` engine into the `dissonance_high`
outcome on a memory whose inference contains "upset": the Angry check fires
(`rAngry = 0 < 0.2`) and the correction fails (`rFix = 0.7`, not `< 0.7`);
the modulation draws are mid-points, so the perturbations are zero. -/
def dissonanceDraws : Code3.Draws :=
  { rGreedy := 0, rAngry := 0, rAffil := 0, rFix := 0.7, rIntro := 1, mu := 1/2, mv := 1/2 }

/-- A one-memory `Code.py` model: identifier "a", inference "i1". -/
def sampleModel1 : Code1.RMMModel :=
  (Code1.add_memory Code1.RMMModel.create "a" "c1" "i1" 0 halfDraws halfDraws).1

/-- The memory stored in `sampleModel1` under "a". -/
def sampleMem1 : Code1.Memory :=
  { Code1.Memory.create "a" "c1" "i1" 0 1 with
    value_alignment_scores := Code1.predict "i1" halfDraws halfDraws }

/-- A `Code3.py` model holding one memory whose inference contains "upset". -/
def upsetModel : Code3.RMMModel :=
  (Code3.add_memory Code3.RMMModel.create "m" "c" "upset" 0).1

/-- A one-memory `Code3.py` model with identifier "a" (duplicate-add fixture). -/
def sampleModel3 : Code3.RMMModel :=
  (Code3.add_memory Code3.RMMModel.create "a" "c1" "i1" 0).1

/-- `n` completed `Code3.py` cycles on the "upset" memory with
`dissonanceDraws` (so every cycle's outcome is `dissonance_high`). -/
def upsetAfter (n : ℕ) : Code3.RMMModel :=
  (fun s => (Code3.run_rmm_cycle s "m" dissonanceDraws).1)^[n] upsetModel

/-- A `Code.py` memory with strength exactly 0.1 (the invariant's lower
bound), used to refute the claimed re-clamping in the rewrite stage. -/
def lowStrengthMem : Code1.Memory := Code1.Memory.create "m" "c" "i" 0 (1/10)

/-! ### Association-list lemmas -/

theorem alookup_aupdate_self {β : Type} (l : List (String × β)) (k : String) (v : β) :
    alookup (aupdate l k v) k = some v := by
  induction l with
  | nil => simp [aupdate, alookup]
  | cons hd t ih =>
    obtain ⟨k0, v0⟩ := hd
    by_cases hk : k0 = k
    · simp [aupdate, hk, alookup]
    · simp [aupdate, hk, alookup, ih]

theorem alookup_aupdate_ne {β : Type} (l : List (String × β)) (k k' : String) (v : β)
    (h : k' ≠ k) : alookup (aupdate l k v) k' = alookup l k' := by
  induction l with
  | nil =>
    have hne : ¬ (k = k') := fun hh => h hh.symm
    simp [aupdate, alookup, hne]
  | cons hd t ih =>
    obtain ⟨k0, v0⟩ := hd
    by_cases hk : k0 = k
    · subst hk
      have hne : ¬ (k0 = k') := fun hh => h hh.symm
      simp [aupdate, alookup, hne]
    · simp [aupdate, hk, alookup, ih]

/-! ### Arithmetic lemmas: uniform draws, clamping, rounding -/

theorem uniform_bounds (a b u : ℚ) (hab : a ≤ b) (h0 : 0 ≤ u) (h1 : u ≤ 1) :
    a ≤ uniform a b u ∧ uniform a b u ≤ b := by
  unfold uniform
  constructor
  · nlinarith
  · nlinarith

theorem clamp01_nonneg (q : ℚ) : 0 ≤ clamp01 q := le_max_left 0 _

theorem clamp01_le_one (q : ℚ) : clamp01 q ≤ 1 := max_le (by norm_num) (min_le_left 1 q)

theorem le_clamp01 (c q : ℚ) (hc : c ≤ 1) (hq : c ≤ q) : c ≤ clamp01 q :=
  le_trans (le_min hc hq) (le_max_right 0 _)

theorem le_roundHalfEven (q : ℚ) (m : ℤ) (h : (m : ℚ) ≤ q) : m ≤ roundHalfEven q := by
  have hfl : m ≤ ⌊q⌋ := Int.le_floor.mpr h
  unfold roundHalfEven
  split_ifs <;> omega

theorem roundHalfEven_le (q : ℚ) (m : ℤ) (h : q ≤ (m : ℚ)) : roundHalfEven q ≤ m := by
  have hfl : ⌊q⌋ ≤ m := by
    have := Int.floor_le_floor h
    simpa using this
  have hq : (⌊q⌋ : ℚ) ≤ q := Int.floor_le q
  unfold roundHalfEven
  split_ifs with h1 h2 h3
  · exact hfl
  · have hlt : (⌊q⌋ : ℚ) < (m : ℚ) := by linarith
    have : ⌊q⌋ < m := by exact_mod_cast hlt
    omega
  · exact hfl
  · have h4 : (1 : ℚ)/2 ≤ q - ⌊q⌋ := le_of_not_lt h1
    have hlt : (⌊q⌋ : ℚ) < (m : ℚ) := by linarith
    have : ⌊q⌋ < m := by exact_mod_cast hlt
    omega

theorem le_round2 (q : ℚ) (m : ℤ) (h : (m : ℚ) ≤ 100 * q) : (m : ℚ)/100 ≤ round2 q := by
  have h1 : m ≤ roundHalfEven (100 * q) := le_roundHalfEven _ _ h
  have h2 : (m : ℚ) ≤ (roundHalfEven (100 * q) : ℚ) := by exact_mod_cast h1
  unfold round2
  linarith

theorem round2_le (q : ℚ) (m : ℤ) (h : 100 * q ≤ (m : ℚ)) : round2 q ≤ (m : ℚ)/100 := by
  have h1 : roundHalfEven (100 * q) ≤ m := roundHalfEven_le _ _ h
  have h2 : (roundHalfEven (100 * q) : ℚ) ≤ (m : ℚ) := by exact_mod_cast h1
  unfold round2
  linarith

theorem round2_den (q : ℚ) : (100 * round2 q).den = 1 := by
  have h : 100 * round2 q = ((roundHalfEven (100 * q) : ℤ) : ℚ) := by
    unfold round2; ring
  rw [h]
  exact Rat.den_intCast _

theorem round2_clamp01_nonneg (x : ℚ) : 0 ≤ round2 (clamp01 x) := by
  have h := le_round2 (clamp01 x) 0 (by
    have := clamp01_nonneg x
    push_cast
    linarith)
  simpa using h

theorem round2_clamp01_le_one (x : ℚ) : round2 (clamp01 x) ≤ 1 := by
  have h := round2_le (clamp01 x) 100 (by
    have := clamp01_le_one x
    push_cast
    linarith)
  norm_num at h
  exact h

theorem round2_clamp01_high (x : ℚ) (h : 13/20 ≤ x) : 13/20 ≤ round2 (clamp01 x) := by
  have hc : 13/20 ≤ clamp01 x := le_clamp01 _ _ (by norm_num) h
  have h2 := le_round2 (clamp01 x) 65 (by push_cast; linarith)
  norm_num at h2
  exact h2

/-! ### ValueScorer lemmas -/

theorem predictScore_bounds (sc vc : ℕ) (u j : ℚ) :
    0 ≤ Code1.predictScore sc vc u j ∧ Code1.predictScore sc vc u j ≤ 1 ∧
      (100 * Code1.predictScore sc vc u j).den = 1 := by
  unfold Code1.predictScore
  exact ⟨round2_clamp01_nonneg _, round2_clamp01_le_one _, round2_den _⟩

theorem predictScore_high (sc vc : ℕ) (hs : 0 < sc) (hv : vc = 0) (u j : ℚ)
    (hu0 : 0 ≤ u) (hu1 : u ≤ 1) (hj0 : 0 ≤ j) (hj1 : j ≤ 1) :
    13/20 ≤ Code1.predictScore sc vc u j := by
  unfold Code1.predictScore
  rw [if_pos ⟨hs, hv⟩]
  apply round2_clamp01_high
  have h1 := uniform_bounds 0.7 1 u (by norm_num) hu0 hu1
  have h2 := uniform_bounds (-0.05) 0.05 j (by norm_num) hj0 hj1
  norm_num at h1 h2 ⊢
  linarith

theorem predictAux_mem_bounds (lowered : String) (u j : ℕ → ℚ) (i : ℕ)
    (tbl : List (String × List String × List String)) :
    ∀ kv ∈ Code1.predictAux lowered u j i tbl,
      0 ≤ kv.2 ∧ kv.2 ≤ 1 ∧ (100 * kv.2).den = 1 := by
  induction tbl generalizing i with
  | nil => intro kv hkv; simp [Code1.predictAux] at hkv
  | cons hd rest ih =>
    obtain ⟨name, sinK, virK⟩ := hd
    intro kv hkv
    simp only [Code1.predictAux, List.mem_cons] at hkv
    rcases hkv with hkv | hkv
    · subst hkv
      exact predictScore_bounds _ _ _ _
    · exact ih (i + 1) kv hkv

theorem predict_mem_bounds (text : String) (u j : ℕ → ℚ) :
    ∀ kv ∈ Code1.predict text u j, 0 ≤ kv.2 ∧ kv.2 ≤ 1 ∧ (100 * kv.2).den = 1 := by
  intro kv hkv
  exact predictAux_mem_bounds _ _ _ _ _ kv hkv

theorem predict_mem_high (text : String) (u j : ℕ → ℚ)
    (hu : ∀ i, i < 7 → 0 ≤ u i ∧ u i ≤ 1) (hj : ∀ i, i < 7 → 0 ≤ j i ∧ j i ≤ 1) :
    ∀ name sinK virK, (name, sinK, virK) ∈ Code1.value_spectrum_keywords →
      0 < Code1.countMatches sinK (lowerStr text) →
      Code1.countMatches virK (lowerStr text) = 0 →
      ∀ sc, (name, sc) ∈ Code1.predict text u j → 13/20 ≤ sc := by
  intro name sinK virK hmem hs hv sc hsc
  simp only [Code1.value_spectrum_keywords, List.mem_cons, List.not_mem_nil, or_false,
    Prod.mk.injEq] at hmem
  simp only [Code1.predict, Code1.predictAux, Code1.value_spectrum_keywords, List.mem_cons,
    List.not_mem_nil, or_false, Prod.mk.injEq] at hsc
  rcases hmem with hm | hm | hm | hm | hm | hm | hm <;>
    obtain ⟨rfl, rfl, rfl⟩ := hm <;>
    simp only [String.reduceEq, false_and, false_or, or_false, true_and] at hsc <;>
    rcases hsc with ⟨-, rfl⟩ <;>
    exact predictScore_high _ _ hs hv _ _ (hu _ (by norm_num)).1 (hu _ (by norm_num)).2
      (hj _ (by norm_num)).1 (hj _ (by norm_num)).2

/-! ### `Code.py` engine lemmas -/

theorem reevaluate_outcome_eq (e : EndocannabinoidSystem) (m : Code1.Memory)
    (d : Code1.CycleDraws) :
    (Code1.reevaluate e m d).2.2 =
      if m.value_alignment_scores.any (fun kv => decide ((0.75 : ℚ) < kv.2)) then
        "inference_corrected" else "no_change" := rfl

theorem reevaluate_count (e : EndocannabinoidSystem) (m : Code1.Memory)
    (d : Code1.CycleDraws) :
    (Code1.reevaluate e m d).1.reprocessing_count = m.reprocessing_count := by
  unfold Code1.reevaluate Code1.apply_modulation
  cases hany : m.value_alignment_scores.any (fun kv => decide ((0.75 : ℚ) < kv.2)) <;>
    simp [hany]

theorem reevaluate_strength_ge (e : EndocannabinoidSystem) (m : Code1.Memory)
    (d : Code1.CycleDraws) :
    (0.1 : ℚ) ≤ (Code1.reevaluate e m d).1.strength := by
  unfold Code1.reevaluate Code1.apply_modulation
  cases hany : m.value_alignment_scores.any (fun kv => decide ((0.75 : ℚ) < kv.2)) <;>
    simp [hany]

theorem reevaluate_valence_bounds (e : EndocannabinoidSystem) (m : Code1.Memory)
    (d : Code1.CycleDraws) :
    -1 ≤ (Code1.reevaluate e m d).1.current_valence ∧
      (Code1.reevaluate e m d).1.current_valence ≤ 1 := by
  unfold Code1.reevaluate Code1.apply_modulation
  cases hany : m.value_alignment_scores.any (fun kv => decide ((0.75 : ℚ) < kv.2)) <;>
    simp [hany]

theorem reevaluate_scores_eq (e : EndocannabinoidSystem) (m : Code1.Memory)
    (d : Code1.CycleDraws) :
    (Code1.reevaluate e m d).1.value_alignment_scores =
      if m.value_alignment_scores.any (fun kv => decide ((0.75 : ℚ) < kv.2)) then
        Code1.predict ("Improved perspective: " ++ m.content) d.u d.j
      else m.value_alignment_scores := by
  unfold Code1.reevaluate Code1.apply_modulation
  cases hany : m.value_alignment_scores.any (fun kv => decide ((0.75 : ℚ) < kv.2)) <;>
    simp [hany]

theorem reevaluate_inference_eq (e : EndocannabinoidSystem) (m : Code1.Memory)
    (d : Code1.CycleDraws) :
    (Code1.reevaluate e m d).1.current_inference =
      if m.value_alignment_scores.any (fun kv => decide ((0.75 : ℚ) < kv.2)) then
        "Improved perspective: " ++ m.content
      else m.current_inference := by
  unfold Code1.reevaluate Code1.apply_modulation
  cases hany : m.value_alignment_scores.any (fun kv => decide ((0.75 : ℚ) < kv.2)) <;>
    simp [hany]

theorem any_score_iff (m : Code1.Memory) :
    (m.value_alignment_scores.any (fun kv => decide ((0.75 : ℚ) < kv.2)) = true)
      ↔ ∃ kv ∈ m.value_alignment_scores, (0.75 : ℚ) < kv.2 := by
  simp [List.any_eq_true]

theorem rewrite_passive_fields (m : Code1.Memory) (o : String) :
    (Code1.rewrite m o).reprocessing_count = m.reprocessing_count ∧
      (Code1.rewrite m o).value_alignment_scores = m.value_alignment_scores ∧
      (Code1.rewrite m o).agreement_shift = m.agreement_shift ∧
      (Code1.rewrite m o).mischievous_shift = m.mischievous_shift ∧
      (Code1.rewrite m o).is_adaptive = m.is_adaptive ∧
      (Code1.rewrite m o).current_inference = m.current_inference := by
  unfold Code1.rewrite
  split_ifs <;> simp

theorem retain_strength (m : Code1.Memory) : (Code1.retain m).strength = m.strength := rfl

theorem cycleBody_adaptive (e : EndocannabinoidSystem) (m : Code1.Memory)
    (d : Code1.CycleDraws) : (Code1.cycleBody e m d).1.is_adaptive = true := rfl

theorem cycleBody_count (e : EndocannabinoidSystem) (m : Code1.Memory)
    (d : Code1.CycleDraws) :
    (Code1.cycleBody e m d).1.reprocessing_count = m.reprocessing_count + 1 := by
  unfold Code1.cycleBody Code1.retain
  have h := rewrite_passive_fields
    { (Code1.reevaluate e { m with reprocessing_count := m.reprocessing_count + 1 } d).1 with
      agreement_shift :=
        mean (({ m with reprocessing_count := m.reprocessing_count + 1 } :
            Code1.Memory).value_alignment_scores.map Prod.snd) -
          mean ((Code1.reevaluate e { m with reprocessing_count := m.reprocessing_count + 1 }
            d).1.value_alignment_scores.map Prod.snd)
      mischievous_shift :=
        |pdStd ((Code1.reevaluate e { m with reprocessing_count := m.reprocessing_count + 1 }
            d).1.value_alignment_scores.map Prod.snd) -
          pdStd (({ m with reprocessing_count := m.reprocessing_count + 1 } :
            Code1.Memory).value_alignment_scores.map Prod.snd)| }
    (Code1.reevaluate e { m with reprocessing_count := m.reprocessing_count + 1 } d).2.2
  rw [h.1]
  have h2 := reevaluate_count e { m with reprocessing_count := m.reprocessing_count + 1 } d
  simpa using h2

theorem rewrite_strength (m : Code1.Memory) (o : String) :
    (Code1.rewrite m o).strength =
      if o = "inference_corrected" then m.strength * 1.1
      else if o = "dissonance_high" then m.strength * 0.8
      else m.strength := by
  unfold Code1.rewrite
  split_ifs <;> rfl

theorem rewrite_valence (m : Code1.Memory) (o : String) :
    (Code1.rewrite m o).current_valence =
      if o = "inference_corrected" then min 1 (m.current_valence + 0.1)
      else if o = "dissonance_high" then max (-1) (m.current_valence - 0.1)
      else m.current_valence := by
  unfold Code1.rewrite
  split_ifs <;> rfl

theorem retain_rewrite_strength (m : Code1.Memory) (o : String) :
    (Code1.retain (Code1.rewrite m o)).strength = (Code1.rewrite m o).strength := rfl

theorem retain_rewrite_valence (m : Code1.Memory) (o : String) :
    (Code1.retain (Code1.rewrite m o)).current_valence = (Code1.rewrite m o).current_valence := rfl

theorem retain_rewrite_scores (m : Code1.Memory) (o : String) :
    (Code1.retain (Code1.rewrite m o)).value_alignment_scores = m.value_alignment_scores := by
  have h := rewrite_passive_fields m o
  simpa [Code1.retain] using h.2.1

theorem retain_rewrite_agreement (m : Code1.Memory) (o : String) :
    (Code1.retain (Code1.rewrite m o)).agreement_shift = m.agreement_shift := by
  have h := rewrite_passive_fields m o
  simpa [Code1.retain] using h.2.2.1

theorem retain_rewrite_mischief (m : Code1.Memory) (o : String) :
    (Code1.retain (Code1.rewrite m o)).mischievous_shift = m.mischievous_shift := by
  have h := rewrite_passive_fields m o
  simpa [Code1.retain] using h.2.2.2.1

/-- `cycleBody` spelled out: the stored memory is
`retain (rewrite (reevaluated memory + fresh shift diagnostics) outcome)`. -/
theorem cycleBody_eq (e : EndocannabinoidSystem) (m : Code1.Memory) (d : Code1.CycleDraws) :
    Code1.cycleBody e m d =
      (Code1.retain (Code1.rewrite
        { (Code1.reevaluate e { m with reprocessing_count := m.reprocessing_count + 1 } d).1 with
          agreement_shift :=
            mean (m.value_alignment_scores.map Prod.snd) -
              mean ((Code1.reevaluate e { m with reprocessing_count := m.reprocessing_count + 1 }
                d).1.value_alignment_scores.map Prod.snd)
          mischievous_shift :=
            |pdStd ((Code1.reevaluate e { m with reprocessing_count := m.reprocessing_count + 1 }
                d).1.value_alignment_scores.map Prod.snd) -
              pdStd (m.value_alignment_scores.map Prod.snd)| }
        (Code1.reevaluate e { m with reprocessing_count := m.reprocessing_count + 1 } d).2.2),
       (Code1.reevaluate e { m with reprocessing_count := m.reprocessing_count + 1 } d).2.1) := rfl

theorem cycleBody_strength_ge (e : EndocannabinoidSystem) (m : Code1.Memory)
    (d : Code1.CycleDraws) : (0.1 : ℚ) ≤ (Code1.cycleBody e m d).1.strength := by
  rw [cycleBody_eq]
  set m1 : Code1.Memory := { m with reprocessing_count := m.reprocessing_count + 1 } with hm1
  set r := Code1.reevaluate e m1 d with hr
  have hs : (0.1 : ℚ) ≤ r.1.strength := reevaluate_strength_ge e m1 d
  have hout := reevaluate_outcome_eq e m1 d
  rw [retain_rewrite_strength, rewrite_strength]
  split_ifs with h1 h2
  · show (0.1 : ℚ) ≤ r.1.strength * 1.1
    nlinarith
  · rw [hout] at h2
    split_ifs at h2 <;> simp at h2
  · exact hs

theorem cycleBody_valence_bounds (e : EndocannabinoidSystem) (m : Code1.Memory)
    (d : Code1.CycleDraws) :
    -1 ≤ (Code1.cycleBody e m d).1.current_valence ∧
      (Code1.cycleBody e m d).1.current_valence ≤ 1 := by
  rw [cycleBody_eq]
  set m1 : Code1.Memory := { m with reprocessing_count := m.reprocessing_count + 1 } with hm1
  set r := Code1.reevaluate e m1 d with hr
  have hv := reevaluate_valence_bounds e m1 d
  rw [retain_rewrite_valence, rewrite_valence]
  split_ifs with h1 h2
  · constructor
    · show (-1 : ℚ) ≤ min 1 (r.1.current_valence + 0.1)
      refine le_min (by norm_num) ?_
      linarith [hv.1]
    · exact min_le_left _ _
  · constructor
    · exact le_max_left _ _
    · show max (-1 : ℚ) (r.1.current_valence - 0.1) ≤ 1
      refine max_le (by norm_num) ?_
      linarith [hv.2]
  · exact hv

theorem cycleBody_scores_bounds (e : EndocannabinoidSystem) (m : Code1.Memory)
    (d : Code1.CycleDraws)
    (hsc : ∀ kv ∈ m.value_alignment_scores, 0 ≤ kv.2 ∧ kv.2 ≤ 1) :
    ∀ kv ∈ (Code1.cycleBody e m d).1.value_alignment_scores, 0 ≤ kv.2 ∧ kv.2 ≤ 1 := by
  rw [cycleBody_eq]
  set m1 : Code1.Memory := { m with reprocessing_count := m.reprocessing_count + 1 } with hm1
  set r := Code1.reevaluate e m1 d with hr
  intro kv hkv
  rw [retain_rewrite_scores] at hkv
  have hscores := reevaluate_scores_eq e m1 d
  rw [← hr] at hscores
  simp only [] at hkv
  rw [hscores] at hkv
  split_ifs at hkv with hany
  · have := predict_mem_bounds ("Improved perspective: " ++ m1.content) d.u d.j kv hkv
    exact ⟨this.1, this.2.1⟩
  · exact hsc kv hkv

theorem cycleBody_shifts (e : EndocannabinoidSystem) (m : Code1.Memory)
    (d : Code1.CycleDraws) :
    (Code1.cycleBody e m d).1.agreement_shift =
      mean (m.value_alignment_scores.map Prod.snd) -
        mean ((Code1.reevaluate e { m with reprocessing_count := m.reprocessing_count + 1 }
          d).1.value_alignment_scores.map Prod.snd) ∧
    (Code1.cycleBody e m d).1.mischievous_shift =
      |pdStd ((Code1.reevaluate e { m with reprocessing_count := m.reprocessing_count + 1 }
          d).1.value_alignment_scores.map Prod.snd) -
        pdStd (m.value_alignment_scores.map Prod.snd)| := by
  rw [cycleBody_eq]
  exact ⟨by rw [retain_rewrite_agreement], by rw [retain_rewrite_mischief]⟩

theorem run_found (s : Code1.RMMModel) (id : String) (d : Code1.CycleDraws)
    (m : Code1.Memory) (h : alookup s.memories id = some m) :
    Code1.run_rmm_cycle s id d =
      ({ ecs := (Code1.cycleBody s.ecs m d).2,
         memories := aupdate s.memories id (Code1.cycleBody s.ecs m d).1 }, false) := by
  unfold Code1.run_rmm_cycle
  rw [h]

theorem run_notfound (s : Code1.RMMModel) (id : String) (d : Code1.CycleDraws)
    (h : alookup s.memories id = none) :
    Code1.run_rmm_cycle s id d = (s, true) := by
  unfold Code1.run_rmm_cycle
  rw [h]

theorem add_memory_stored (s : Code1.RMMModel) (id c inf : String) (v : ℚ) (u j : ℕ → ℚ) :
    alookup (Code1.add_memory s id c inf v u j).1.memories id =
      some { Code1.Memory.create id c inf v 1 with
             value_alignment_scores := Code1.predict inf u j } := by
  unfold Code1.add_memory
  exact alookup_aupdate_self _ _ _

/-! ### `Code3.py` engine lemmas -/

theorem run3_notfound (s : Code3.RMMModel) (id : String) (d : Code3.Draws)
    (h : alookup s.memories id = none) :
    Code3.run_rmm_cycle s id d = (s, true) := by
  unfold Code3.run_rmm_cycle
  rw [h]

theorem add3_warned (s : Code3.RMMModel) (id c inf : String) (v : ℚ) :
    (Code3.add_memory s id c inf v).2 = (alookup s.memories id).isSome := rfl

theorem add3_stored (s : Code3.RMMModel) (id c inf : String) (v : ℚ) :
    alookup (Code3.add_memory s id c inf v).1.memories id =
      some (Code3.Memory.create id c inf v 1) := by
  unfold Code3.add_memory
  exact alookup_aupdate_self _ _ _

theorem run3_found (s3 : Code3.RMMModel) (id : String) (d : Code3.Draws) (m : Code3.Memory)
    (h : alookup s3.memories id = some m) :
    Code3.run_rmm_cycle s3 id d =
      ({ ecs := (Code3.reevaluate_memory s3.ecs
            { m with reprocessing_count := m.reprocessing_count + 1 } d).2.1,
         memories := aupdate s3.memories id
           (Code3.retain_memory (Code3.rewrite_memory
             (Code3.reevaluate_memory s3.ecs
               { m with reprocessing_count := m.reprocessing_count + 1 } d).1
             (Code3.reevaluate_memory s3.ecs
               { m with reprocessing_count := m.reprocessing_count + 1 } d).2.2)) },
       false) := by
  unfold Code3.run_rmm_cycle
  rw [h]

theorem run3_found_memories (s3 : Code3.RMMModel) (id : String) (d : Code3.Draws)
    (m : Code3.Memory) (h : alookup s3.memories id = some m) :
    (Code3.run_rmm_cycle s3 id d).1.memories =
      aupdate s3.memories id
        (Code3.retain_memory (Code3.rewrite_memory
          (Code3.reevaluate_memory s3.ecs
            { m with reprocessing_count := m.reprocessing_count + 1 } d).1
          (Code3.reevaluate_memory s3.ecs
            { m with reprocessing_count := m.reprocessing_count + 1 } d).2.2)) := by
  rw [run3_found s3 id d m h]

theorem reevaluate3_count (e : EndocannabinoidSystem) (m : Code3.Memory) (d : Code3.Draws) :
    (Code3.reevaluate_memory e m d).1.reprocessing_count = m.reprocessing_count := by
  unfold Code3.reevaluate_memory Code3.apply_modulation
  split <;> simp
  all_goals (split <;> simp)

theorem reevaluate3_valence_bounds (e : EndocannabinoidSystem) (m : Code3.Memory)
    (d : Code3.Draws) :
    -1 ≤ (Code3.reevaluate_memory e m d).1.current_valence ∧
      (Code3.reevaluate_memory e m d).1.current_valence ≤ 1 := by
  unfold Code3.reevaluate_memory Code3.apply_modulation
  split <;> simp

theorem rewrite3_count (m : Code3.Memory) (o : String) :
    (Code3.rewrite_memory m o).reprocessing_count = m.reprocessing_count := by
  unfold Code3.rewrite_memory
  split_ifs <;> rfl

theorem rewrite3_valence_bounds (m : Code3.Memory) (o : String)
    (hv : -1 ≤ m.current_valence ∧ m.current_valence ≤ 1) :
    -1 ≤ (Code3.rewrite_memory m o).current_valence ∧
      (Code3.rewrite_memory m o).current_valence ≤ 1 := by
  unfold Code3.rewrite_memory
  split_ifs <;> simp_all

/-! ### The claims -/

/-- Claim C10: in the threshold-policy engine of `src/Code.py`, `reevaluate`
returns only the outcomes `inference_corrected` or `no_change`, for every
memory, ECS state and random draw; consequently the `dissonance_high` branch
of `rewrite` (strength × 0.8, valence − 0.1) is never executed within any
`run_rmm_cycle` call: applied to any outcome `reevaluate` can produce, the
rewrite stage is exactly the `inference_corrected` update or the identity. -/
theorem claim_C10 (e : EndocannabinoidSystem) (m : Code1.Memory) (d : Code1.CycleDraws) :
    ((Code1.reevaluate e m d).2.2 = "inference_corrected" ∨
      (Code1.reevaluate e m d).2.2 = "no_change") ∧
    ∀ m' : Code1.Memory,
      Code1.rewrite m' (Code1.reevaluate e m d).2.2 =
        if (Code1.reevaluate e m d).2.2 = "inference_corrected" then
          { m' with strength := m'.strength * 1.1,
                    current_valence := min 1 (m'.current_valence + 0.1) }
        else m' := by
  have hout := reevaluate_outcome_eq e m d
  cases hany : m.value_alignment_scores.any (fun kv => decide ((0.75 : ℚ) < kv.2)) <;>
    rw [hany] at hout <;> simp only [if_true, if_false, Bool.false_eq_true] at hout
  · refine ⟨Or.inr hout, fun m' => ?_⟩
    rw [hout]
    unfold Code1.rewrite
    simp
  · refine ⟨Or.inl hout, fun m' => ?_⟩
    rw [hout]
    unfold Code1.rewrite
    simp

/-- Claim C4: a `run_rmm_cycle` call on an identifier absent from the
collection raises no exception (both embedded cycle functions are total),
reports not-found to the caller (second component `true`), and performs zero
side effects: the model — ECS state and the whole memory collection — is
returned exactly as it was. Stated for both engines. -/
theorem claim_C4 (s : Code1.RMMModel) (s3 : Code3.RMMModel) (id : String)
    (d : Code1.CycleDraws) (d3 : Code3.Draws)
    (h : alookup s.memories id = none) (h3 : alookup s3.memories id = none) :
    Code1.run_rmm_cycle s id d = (s, true) ∧ Code3.run_rmm_cycle s3 id d3 = (s3, true) :=
  ⟨run_notfound s id d h, run3_notfound s3 id d3 h3⟩

/-- Witness for C4: on empty collections and the identifier "missing_id",
both engines report not-found and leave the collection empty. -/
theorem claim_C4_witness :
    alookup Code1.RMMModel.create.memories "missing_id" = none ∧
    alookup Code3.RMMModel.create.memories "missing_id" = none ∧
    Code1.run_rmm_cycle Code1.RMMModel.create "missing_id" midCycleDraws
        = (Code1.RMMModel.create, true) ∧
    Code3.run_rmm_cycle Code3.RMMModel.create "missing_id" dissonanceDraws
        = (Code3.RMMModel.create, true) := by
  have h := claim_C4 Code1.RMMModel.create Code3.RMMModel.create "missing_id"
    midCycleDraws dissonanceDraws rfl rfl
  exact ⟨rfl, rfl, h.1, h.2⟩

theorem run_found_memories (s : Code1.RMMModel) (id : String) (d : Code1.CycleDraws)
    (m : Code1.Memory) (h : alookup s.memories id = some m) :
    (Code1.run_rmm_cycle s id d).1.memories =
      aupdate s.memories id (Code1.cycleBody s.ecs m d).1 := by
  rw [run_found s id d m h]

/-- Claim C3: in both engines, a `run_rmm_cycle` call on an identifier
present in the collection increases exactly that memory's
`reprocessing_count` by 1 and leaves every other memory's count unchanged;
a call on an absent identifier changes no memory's count. -/
theorem claim_C3 (s : Code1.RMMModel) (s3 : Code3.RMMModel) (id : String)
    (d : Code1.CycleDraws) (d3 : Code3.Draws) :
    (∀ m, alookup s.memories id = some m →
      (alookup (Code1.run_rmm_cycle s id d).1.memories id).map Code1.Memory.reprocessing_count
          = some (m.reprocessing_count + 1) ∧
      ∀ id', id' ≠ id →
        (alookup (Code1.run_rmm_cycle s id d).1.memories id').map Code1.Memory.reprocessing_count
          = (alookup s.memories id').map Code1.Memory.reprocessing_count) ∧
    (alookup s.memories id = none →
      ∀ id',
        (alookup (Code1.run_rmm_cycle s id d).1.memories id').map Code1.Memory.reprocessing_count
          = (alookup s.memories id').map Code1.Memory.reprocessing_count) ∧
    (∀ m3, alookup s3.memories id = some m3 →
      (alookup (Code3.run_rmm_cycle s3 id d3).1.memories id).map Code3.Memory.reprocessing_count
          = some (m3.reprocessing_count + 1) ∧
      ∀ id', id' ≠ id →
        (alookup (Code3.run_rmm_cycle s3 id d3).1.memories id').map
            Code3.Memory.reprocessing_count
          = (alookup s3.memories id').map Code3.Memory.reprocessing_count) ∧
    (alookup s3.memories id = none →
      ∀ id',
        (alookup (Code3.run_rmm_cycle s3 id d3).1.memories id').map
            Code3.Memory.reprocessing_count
          = (alookup s3.memories id').map Code3.Memory.reprocessing_count) := by
  refine ⟨?_, ?_, ?_, ?_⟩
  · intro m hm
    constructor
    · rw [run_found_memories s id d m hm, alookup_aupdate_self]
      simp [cycleBody_count]
    · intro id' hne
      rw [run_found_memories s id d m hm, alookup_aupdate_ne _ _ _ _ hne]
  · intro hnone id'
    rw [run_notfound s id d hnone]
  · intro m3 hm3
    constructor
    · rw [run3_found_memories s3 id d3 m3 hm3, alookup_aupdate_self]
      simp [Code3.retain_memory, rewrite3_count, reevaluate3_count]
    · intro id' hne
      rw [run3_found_memories s3 id d3 m3 hm3, alookup_aupdate_ne _ _ _ _ hne]
  · intro hnone3 id'
    rw [run3_notfound s3 id d3 hnone3]

/-- Witness for C3: concrete one-memory models in both engines; after one
cycle the stored count is 1 = 0 + 1. -/
theorem claim_C3_witness :
    alookup sampleModel1.memories "a" = some sampleMem1 ∧
    alookup sampleModel3.memories "a" = some (Code3.Memory.create "a" "c1" "i1" 0 1) ∧
    (alookup (Code1.run_rmm_cycle sampleModel1 "a" midCycleDraws).1.memories "a").map
        Code1.Memory.reprocessing_count = some (sampleMem1.reprocessing_count + 1) ∧
    (alookup (Code3.run_rmm_cycle sampleModel3 "a" dissonanceDraws).1.memories "a").map
        Code3.Memory.reprocessing_count
      = some ((Code3.Memory.create "a" "c1" "i1" 0 1).reprocessing_count + 1) := by
  have hfound : alookup sampleModel1.memories "a" = some sampleMem1 :=
    add_memory_stored Code1.RMMModel.create "a" "c1" "i1" 0 halfDraws halfDraws
  have hfound3 : alookup sampleModel3.memories "a"
      = some (Code3.Memory.create "a" "c1" "i1" 0 1) :=
    add3_stored Code3.RMMModel.create "a" "c1" "i1" 0
  have h := claim_C3 sampleModel1 sampleModel3 "a" midCycleDraws dissonanceDraws
  exact ⟨hfound, hfound3, (h.1 sampleMem1 hfound).1,
    (h.2.2.1 (Code3.Memory.create "a" "c1" "i1" 0 1) hfound3).1⟩

/-- Claim C2: in the re-evaluation stage of the threshold-policy engine
(`src/Code.py`), for a memory whose stored pre-state scores were produced by
the ValueScorer on its current inference, the outcome is `inference_corrected`
exactly when some principle's pre-state score exceeds the 0.75 trigger
threshold; when triggered, `current_inference` is replaced by the transformed
string `"Improved perspective: " ++ content` and the scores are recomputed
from that new inference; when not triggered, the outcome is `no_change` and
`current_inference` is unchanged. -/
theorem claim_C2 (e : EndocannabinoidSystem) (m : Code1.Memory) (d : Code1.CycleDraws)
    (u0 j0 : ℕ → ℚ)
    (hpre : m.value_alignment_scores = Code1.predict m.current_inference u0 j0) :
    ((Code1.reevaluate e m d).2.2 = "inference_corrected" ↔
      ∃ kv ∈ m.value_alignment_scores, (0.75 : ℚ) < kv.2) ∧
    ((∃ kv ∈ m.value_alignment_scores, (0.75 : ℚ) < kv.2) →
      (Code1.reevaluate e m d).1.current_inference = "Improved perspective: " ++ m.content ∧
      (Code1.reevaluate e m d).1.value_alignment_scores =
        Code1.predict ("Improved perspective: " ++ m.content) d.u d.j) ∧
    (¬ (∃ kv ∈ m.value_alignment_scores, (0.75 : ℚ) < kv.2) →
      (Code1.reevaluate e m d).2.2 = "no_change" ∧
      (Code1.reevaluate e m d).1.current_inference = m.current_inference) := by
  have hout := reevaluate_outcome_eq e m d
  have hinf := reevaluate_inference_eq e m d
  have hsc := reevaluate_scores_eq e m d
  cases hany : m.value_alignment_scores.any (fun kv => decide ((0.75 : ℚ) < kv.2)) <;>
    simp only [hany, Bool.false_eq_true, if_true, if_false] at hout hinf hsc
  · have hnex : ¬ ∃ kv ∈ m.value_alignment_scores, (0.75 : ℚ) < kv.2 := by
      rw [← any_score_iff m, hany]
      simp
    refine ⟨?_, fun hex => absurd hex hnex, fun _ => ⟨hout, hinf⟩⟩
    constructor
    · intro hcontra
      rw [hout] at hcontra
      simp at hcontra
    · intro hex
      exact absurd hex hnex
  · have hex : ∃ kv ∈ m.value_alignment_scores, (0.75 : ℚ) < kv.2 :=
      (any_score_iff m).mp hany
    exact ⟨⟨fun _ => hex, fun _ => hout⟩, fun _ => ⟨hinf, hsc⟩, fun hne => absurd hex hne⟩

/-- Witness for C2: a memory whose stored scores come from the scorer on its
inference "i1" (all scores are 0.5, so the cycle is not triggered and the
outcome is `no_change`). -/
theorem claim_C2_witness :
    sampleMem1.value_alignment_scores =
        Code1.predict sampleMem1.current_inference halfDraws halfDraws ∧
    ((Code1.reevaluate EndocannabinoidSystem.create sampleMem1 midCycleDraws).2.2
          = "inference_corrected" ↔
      ∃ kv ∈ sampleMem1.value_alignment_scores, (0.75 : ℚ) < kv.2) := by
  have hpre : sampleMem1.value_alignment_scores =
      Code1.predict sampleMem1.current_inference halfDraws halfDraws := rfl
  exact ⟨hpre,
    (claim_C2 EndocannabinoidSystem.create sampleMem1 midCycleDraws halfDraws halfDraws hpre).1⟩

/-- Claim C7: after each completed `run_rmm_cycle` of the `Code.py` engine,
`agreement_shift` equals mean(pre-scores) − mean(post-scores) and
`mischievous_shift` equals |std(post-scores) − std(pre-scores)|, where the
pre-scores are the memory's value-alignment scores at the start of that cycle
and the post-scores are those after re-evaluation. The equations hold for an
arbitrary starting state — in particular for the state produced by a previous
call, and their right-hand sides depend only on that cycle's own pre/post
scores (not on the previously stored shifts) — so a second consecutive call
recomputes the diagnostics fresh rather than accumulating them. -/
theorem claim_C7 (s : Code1.RMMModel) (id : String) (d : Code1.CycleDraws)
    (m : Code1.Memory) (h : alookup s.memories id = some m) :
    (alookup (Code1.run_rmm_cycle s id d).1.memories id).map Code1.Memory.agreement_shift
        = some (mean (m.value_alignment_scores.map Prod.snd) -
            mean ((Code1.reevaluate s.ecs
                { m with reprocessing_count := m.reprocessing_count + 1 }
                d).1.value_alignment_scores.map Prod.snd)) ∧
    (alookup (Code1.run_rmm_cycle s id d).1.memories id).map Code1.Memory.mischievous_shift
        = some |pdStd ((Code1.reevaluate s.ecs
                { m with reprocessing_count := m.reprocessing_count + 1 }
                d).1.value_alignment_scores.map Prod.snd) -
            pdStd (m.value_alignment_scores.map Prod.snd)| := by
  have hshift := cycleBody_shifts s.ecs m d
  constructor <;> rw [run_found_memories s id d m h, alookup_aupdate_self] <;>
    simp [hshift.1, hshift.2]

/-- Witness for C7: the shift equations hold after one concrete cycle. -/
theorem claim_C7_witness :
    alookup sampleModel1.memories "a" = some sampleMem1 ∧
    (alookup (Code1.run_rmm_cycle sampleModel1 "a" midCycleDraws).1.memories "a").map
        Code1.Memory.agreement_shift
      = some (mean (sampleMem1.value_alignment_scores.map Prod.snd) -
          mean ((Code1.reevaluate sampleModel1.ecs
              { sampleMem1 with reprocessing_count := sampleMem1.reprocessing_count + 1 }
              midCycleDraws).1.value_alignment_scores.map Prod.snd)) := by
  have hfound : alookup sampleModel1.memories "a" = some sampleMem1 :=
    add_memory_stored Code1.RMMModel.create "a" "c1" "i1" 0 halfDraws halfDraws
  exact ⟨hfound, (claim_C7 sampleModel1 "a" midCycleDraws sampleMem1 hfound).1⟩

/-- Claim C8: in both engines, the retain stage sets `is_adaptive` to true
and is idempotent; `is_adaptive` is false at creation (hence before any
successful cycle), true after any successful `run_rmm_cycle`, running retain
(or any further cycle) again leaves it true, and no cycle operation ever
reverts it to false. (Re-adding an identifier replaces the stored memory by
a freshly created one rather than mutating any memory's flag, so the
per-memory flag never reverts.) -/
theorem claim_C8 :
    (∀ (i c inf : String) (v st : ℚ), (Code1.Memory.create i c inf v st).is_adaptive = false) ∧
    (∀ m : Code1.Memory, (Code1.retain m).is_adaptive = true) ∧
    (∀ m : Code1.Memory, Code1.retain (Code1.retain m) = Code1.retain m) ∧
    (∀ (s : Code1.RMMModel) (id : String) (d : Code1.CycleDraws) (m : Code1.Memory),
      alookup s.memories id = some m →
      (alookup (Code1.run_rmm_cycle s id d).1.memories id).map Code1.Memory.is_adaptive
        = some true) ∧
    (∀ (s : Code1.RMMModel) (id id' : String) (d : Code1.CycleDraws),
      (alookup s.memories id').map Code1.Memory.is_adaptive = some true →
      (alookup (Code1.run_rmm_cycle s id d).1.memories id').map Code1.Memory.is_adaptive
        = some true) ∧
    (∀ (i c inf : String) (v st : ℚ), (Code3.Memory.create i c inf v st).is_adaptive = false) ∧
    (∀ m3 : Code3.Memory, (Code3.retain_memory m3).is_adaptive = true) ∧
    (∀ m3 : Code3.Memory,
      Code3.retain_memory (Code3.retain_memory m3) = Code3.retain_memory m3) ∧
    (∀ (s3 : Code3.RMMModel) (id : String) (d3 : Code3.Draws) (m3 : Code3.Memory),
      alookup s3.memories id = some m3 →
      (alookup (Code3.run_rmm_cycle s3 id d3).1.memories id).map Code3.Memory.is_adaptive
        = some true) ∧
    (∀ (s3 : Code3.RMMModel) (id id' : String) (d3 : Code3.Draws),
      (alookup s3.memories id').map Code3.Memory.is_adaptive = some true →
      (alookup (Code3.run_rmm_cycle s3 id d3).1.memories id').map Code3.Memory.is_adaptive
        = some true) := by
  refine ⟨fun _ _ _ _ _ => rfl, fun _ => rfl, fun _ => rfl, ?_, ?_,
    fun _ _ _ _ _ => rfl, fun _ => rfl, fun _ => rfl, ?_, ?_⟩
  · intro s id d m hm
    rw [run_found_memories s id d m hm, alookup_aupdate_self]
    simp [cycleBody_adaptive]
  · intro s id id' d h
    rcases hfound : alookup s.memories id with _ | m
    · rw [run_notfound s id d hfound]
      exact h
    · rw [run_found_memories s id d m hfound]
      by_cases hid : id' = id
      · subst hid
        rw [alookup_aupdate_self]
        simp [cycleBody_adaptive]
      · rw [alookup_aupdate_ne _ _ _ _ hid]
        exact h
  · intro s3 id d3 m3 hm3
    rw [run3_found_memories s3 id d3 m3 hm3, alookup_aupdate_self]
    rfl
  · intro s3 id id' d3 h
    rcases hfound : alookup s3.memories id with _ | m3
    · rw [run3_notfound s3 id d3 hfound]
      exact h
    · rw [run3_found_memories s3 id d3 m3 hfound]
      by_cases hid : id' = id
      · subst hid
        rw [alookup_aupdate_self]
        rfl
      · rw [alookup_aupdate_ne _ _ _ _ hid]
        exact h

/-- Witness for C8 at concrete inputs in both engines: fresh memories are not
adaptive, retain sets and keeps the flag, and one concrete cycle makes the
stored memory adaptive. -/
theorem claim_C8_witness :
    (Code1.Memory.create "a" "c" "i" 0 1).is_adaptive = false ∧
    (Code1.retain sampleMem1).is_adaptive = true ∧
    Code1.retain (Code1.retain sampleMem1) = Code1.retain sampleMem1 ∧
    (alookup (Code1.run_rmm_cycle sampleModel1 "a" midCycleDraws).1.memories "a").map
        Code1.Memory.is_adaptive = some true ∧
    (Code3.Memory.create "a" "c1" "i1" 0 1).is_adaptive = false ∧
    (Code3.retain_memory (Code3.Memory.create "a" "c1" "i1" 0 1)).is_adaptive = true ∧
    (alookup (Code3.run_rmm_cycle sampleModel3 "a" dissonanceDraws).1.memories "a").map
        Code3.Memory.is_adaptive = some true := by
  have hfound : alookup sampleModel1.memories "a" = some sampleMem1 :=
    add_memory_stored Code1.RMMModel.create "a" "c1" "i1" 0 halfDraws halfDraws
  have hfound3 : alookup sampleModel3.memories "a"
      = some (Code3.Memory.create "a" "c1" "i1" 0 1) :=
    add3_stored Code3.RMMModel.create "a" "c1" "i1" 0
  exact ⟨claim_C8.1 "a" "c" "i" 0 1, claim_C8.2.1 sampleMem1, claim_C8.2.2.1 sampleMem1,
    claim_C8.2.2.2.1 sampleModel1 "a" midCycleDraws sampleMem1 hfound,
    claim_C8.2.2.2.2.2.1 "a" "c1" "i1" 0 1,
    claim_C8.2.2.2.2.2.2.1 (Code3.Memory.create "a" "c1" "i1" 0 1),
    claim_C8.2.2.2.2.2.2.2.2.1 sampleModel3 "a" dissonanceDraws
      (Code3.Memory.create "a" "c1" "i1" 0 1) hfound3⟩

/-- Claim C6: for every input text and all legitimate random draws, each score
returned by the ValueScorer lies in [0, 1] and is rounded to 2 decimal places
(100 × score is an integer); moreover, for any principle whose
negative-indicator keywords occur in the lower-cased text while none of its
positive-indicator keywords do, the returned score for that principle is at
least 0.65 (= 13/20), the high band [0.7, 1.0] minus the 0.05 jitter bound
after clamping and rounding. -/
theorem claim_C6 (text : String) (u j : ℕ → ℚ)
    (hu : ∀ i, i < 7 → 0 ≤ u i ∧ u i ≤ 1) (hj : ∀ i, i < 7 → 0 ≤ j i ∧ j i ≤ 1) :
    (∀ kv ∈ Code1.predict text u j, 0 ≤ kv.2 ∧ kv.2 ≤ 1 ∧ (100 * kv.2).den = 1) ∧
    (∀ name sinK virK, (name, sinK, virK) ∈ Code1.value_spectrum_keywords →
      0 < Code1.countMatches sinK (lowerStr text) →
      Code1.countMatches virK (lowerStr text) = 0 →
      ∀ sc, (name, sc) ∈ Code1.predict text u j → 13/20 ≤ sc) :=
  ⟨predict_mem_bounds text u j, predict_mem_high text u j hu hj⟩

/-- Witness for C6: the text "He was boastful" matches the Pride sin keyword
"boastful" and no Pride virtue keyword, so every Pride score is at least
0.65; all scores are in [0, 1] and two-decimal. -/
theorem claim_C6_witness :
    (∀ i, i < 7 → 0 ≤ halfDraws i ∧ halfDraws i ≤ 1) ∧
    0 < Code1.countMatches ["superior", "arrogant", "boastful"] (lowerStr "He was boastful") ∧
    Code1.countMatches ["humble", "modest"] (lowerStr "He was boastful") = 0 ∧
    (∀ kv ∈ Code1.predict "He was boastful" halfDraws halfDraws,
      0 ≤ kv.2 ∧ kv.2 ≤ 1 ∧ (100 * kv.2).den = 1) ∧
    (∀ sc, ("Pride", sc) ∈ Code1.predict "He was boastful" halfDraws halfDraws →
      13/20 ≤ sc) := by
  have hu : ∀ i, i < 7 → 0 ≤ halfDraws i ∧ halfDraws i ≤ 1 := by
    intro i _
    norm_num [halfDraws]
  have h := claim_C6 "He was boastful" halfDraws halfDraws hu hu
  refine ⟨hu, by decide, by decide, h.1, fun sc hsc => ?_⟩
  exact h.2 "Pride" ["superior", "arrogant", "boastful"] ["humble", "modest"]
    (by decide) (by decide) (by decide) sc hsc

/-- Claim C1 (amended): in the `Code.py` engine, for a collection-resident
memory (one whose stored scores lie in [0, 1], as every ValueScorer output
does), after any completed `run_rmm_cycle` and for every random draw the
stored memory satisfies `0.1 ≤ strength`, `-1 ≤ current_valence ≤ 1`, and
every value of `value_alignment_scores` lies in [0, 1]. In the `Code3.py`
engine the valence bound holds too (second conjunct; its memories carry no
scores), but the strength bound fails: see the counterexample, where
repeated `dissonance_high` cycles drive strength below 0.1 because
`rewrite_memory` multiplies by 0.8 without re-clamping. -/
theorem claim_C1 (s : Code1.RMMModel) (s3 : Code3.RMMModel) (id : String)
    (d : Code1.CycleDraws) (d3 : Code3.Draws) :
    (∀ m, alookup s.memories id = some m →
      (∀ kv ∈ m.value_alignment_scores, 0 ≤ kv.2 ∧ kv.2 ≤ 1) →
      ∃ m', alookup (Code1.run_rmm_cycle s id d).1.memories id = some m' ∧
        (0.1 : ℚ) ≤ m'.strength ∧
        -1 ≤ m'.current_valence ∧ m'.current_valence ≤ 1 ∧
        (∀ kv ∈ m'.value_alignment_scores, 0 ≤ kv.2 ∧ kv.2 ≤ 1)) ∧
    (∀ m3, alookup s3.memories id = some m3 →
      ∃ m3', alookup (Code3.run_rmm_cycle s3 id d3).1.memories id = some m3' ∧
        -1 ≤ m3'.current_valence ∧ m3'.current_valence ≤ 1) := by
  constructor
  · intro m h hsc
    refine ⟨(Code1.cycleBody s.ecs m d).1, ?_, cycleBody_strength_ge s.ecs m d,
      (cycleBody_valence_bounds s.ecs m d).1, (cycleBody_valence_bounds s.ecs m d).2,
      cycleBody_scores_bounds s.ecs m d hsc⟩
    rw [run_found_memories s id d m h, alookup_aupdate_self]
  · intro m3 h3
    have hb := reevaluate3_valence_bounds s3.ecs
      { m3 with reprocessing_count := m3.reprocessing_count + 1 } d3
    have hr := rewrite3_valence_bounds
      (Code3.reevaluate_memory s3.ecs
        { m3 with reprocessing_count := m3.reprocessing_count + 1 } d3).1
      (Code3.reevaluate_memory s3.ecs
        { m3 with reprocessing_count := m3.reprocessing_count + 1 } d3).2.2 hb
    refine ⟨Code3.retain_memory (Code3.rewrite_memory
        (Code3.reevaluate_memory s3.ecs
          { m3 with reprocessing_count := m3.reprocessing_count + 1 } d3).1
        (Code3.reevaluate_memory s3.ecs
          { m3 with reprocessing_count := m3.reprocessing_count + 1 } d3).2.2),
      ?_, hr.1, hr.2⟩
    rw [run3_found_memories s3 id d3 m3 h3, alookup_aupdate_self]


/-- Witness for C1: one concrete cycle on a one-memory model in each engine. -/
theorem claim_C1_witness :
    alookup sampleModel1.memories "a" = some sampleMem1 ∧
    (∀ kv ∈ sampleMem1.value_alignment_scores, 0 ≤ kv.2 ∧ kv.2 ≤ 1) ∧
    alookup sampleModel3.memories "a" = some (Code3.Memory.create "a" "c1" "i1" 0 1) ∧
    (∃ m', alookup (Code1.run_rmm_cycle sampleModel1 "a" midCycleDraws).1.memories "a"
          = some m' ∧
      (0.1 : ℚ) ≤ m'.strength ∧
      -1 ≤ m'.current_valence ∧ m'.current_valence ≤ 1 ∧
      (∀ kv ∈ m'.value_alignment_scores, 0 ≤ kv.2 ∧ kv.2 ≤ 1)) ∧
    (∃ m3', alookup (Code3.run_rmm_cycle sampleModel3 "a" dissonanceDraws).1.memories "a"
          = some m3' ∧
      -1 ≤ m3'.current_valence ∧ m3'.current_valence ≤ 1) := by
  have hfound : alookup sampleModel1.memories "a" = some sampleMem1 :=
    add_memory_stored Code1.RMMModel.create "a" "c1" "i1" 0 halfDraws halfDraws
  have hfound3 : alookup sampleModel3.memories "a"
      = some (Code3.Memory.create "a" "c1" "i1" 0 1) :=
    add3_stored Code3.RMMModel.create "a" "c1" "i1" 0
  have hsc : ∀ kv ∈ sampleMem1.value_alignment_scores, 0 ≤ kv.2 ∧ kv.2 ≤ 1 := by
    intro kv hkv
    have hb := predict_mem_bounds "i1" halfDraws halfDraws kv hkv
    exact ⟨hb.1, hb.2.1⟩
  have h := claim_C1 sampleModel1 sampleModel3 "a" midCycleDraws dissonanceDraws
  exact ⟨hfound, hsc, hfound3, h.1 sampleMem1 hfound hsc,
    h.2 (Code3.Memory.create "a" "c1" "i1" 0 1) hfound3⟩

/-- One `Code3.py` cycle on a memory whose inference is "upset", with the
`dissonanceDraws`: the Angry check fires, the correction fails, the outcome is
`dissonance_high`, the zero-perturbation modulation draws leave strength at
`max 0.1 strength`, and the rewrite multiplies by 0.8 with no re-clamping. -/
theorem upset_step (s3 : Code3.RMMModel) (m : Code3.Memory)
    (h : alookup s3.memories "m" = some m)
    (hinf : m.current_inference = "upset")
    (hid : m.identifier = "m") (hcon : m.content = "c") (hiv : m.initial_valence = 0)
    (n : ℕ) (hn : m.reprocessing_count = n)
    (hecs : s3.ecs.baseline_modulation_strength = 0.1)
    (st' v' : ℚ)
    (hst : st' = max 0.1 m.strength * 0.8)
    (hv : v' = max (-1) (min 1 (max (-1) (min 1 m.current_valence) - 0.1))) :
    (Code3.run_rmm_cycle s3 "m" dissonanceDraws).2 = false ∧
    (Code3.run_rmm_cycle s3 "m" dissonanceDraws).1.ecs.baseline_modulation_strength = 0.1 ∧
    alookup (Code3.run_rmm_cycle s3 "m" dissonanceDraws).1.memories "m" =
      some { identifier := "m", content := "c", current_inference := "upset",
             initial_valence := 0, current_valence := v', strength := st',
             reprocessing_count := n + 1, is_adaptive := true } := by
  have hG : occursIn "gain" (lowerStr "upset") = false := by decide
  have hU : occursIn "upset" (lowerStr "upset") = true := by decide
  have hAl : occursIn "alone" (lowerStr "upset") = false := by decide
  have hc1 : Code3.value_system_principles.contains "Greedy" = true := by decide
  have hc2 : Code3.value_system_principles.contains "Angry" = true := by decide
  have hc3 : Code3.value_system_principles.contains "Affiliational" = true := by decide
  have hd1 : decide ((0 : ℚ) < 0.2) = true := decide_eq_true (by norm_num)
  have hfix : ¬ ((0.7 : ℚ) < 0.7) := by norm_num
  rw [run3_found s3 "m" dissonanceDraws m h]
  have hre : Code3.reevaluate_memory s3.ecs
      { m with reprocessing_count := m.reprocessing_count + 1 } dissonanceDraws =
      (Code3.apply_modulation
        { s3.ecs with current_modulation := s3.ecs.baseline_modulation_strength * 0.5 }
        { m with reprocessing_count := m.reprocessing_count + 1 } (1/2) (1/2),
       { s3.ecs with current_modulation := s3.ecs.baseline_modulation_strength * 0.5 },
       "dissonance_high") := by
    unfold Code3.reevaluate_memory EndocannabinoidSystem.get_feedback_signal
    simp only [hinf, hG, hU, hAl, hc1, hc2, hc3, dissonanceDraws, hd1]
    rw [if_neg hfix]
    simp only [Bool.true_and, Bool.false_and, Bool.and_true, Bool.and_false, Bool.false_or,
      Bool.or_false, Bool.true_or, Bool.or_true, if_true, if_false, String.reduceEq,
      Bool.true_eq_false, Bool.false_eq_true]
  rw [hre]
  refine ⟨rfl, hecs, ?_⟩
  rw [alookup_aupdate_self]
  unfold Code3.apply_modulation Code3.rewrite_memory Code3.retain_memory
  simp [Code3.Memory.mk.injEq, hv, hst, hid, hcon, hiv, hn]
  refine ⟨hinf, ?_, Or.inl ?_⟩
  · have hX : s3.ecs.baseline_modulation_strength * 0.5 * uniform (-5e-2) 5e-2 (2⁻¹ : ℚ) = 0 := by
      rw [hecs]
      norm_num [uniform]
    rw [hX, add_zero]
  · have hX : s3.ecs.baseline_modulation_strength * 0.5 * uniform (-0.1) 0.1 (2⁻¹ : ℚ) = 0 := by
      rw [hecs]
      norm_num [uniform]
    rw [hX, add_zero]

/-- Counterexample to claim C1 as stated: in the `Code3.py` engine, with
legitimate random draws (`dissonanceDraws` is valid), every cycle on the
"upset" memory completes with outcome `dissonance_high`; the 11th completed
`run_rmm_cycle` call ends with stored strength (4/5)^11 = 4194304/48828125
≈ 0.0859 < 0.1, violating the claimed `0.1 ≤ strength` invariant, because
`rewrite_memory` multiplies strength by 0.8 without re-clamping. -/
theorem claim_C1_counterexample :
    Code3.Draws.Valid dissonanceDraws ∧
    (Code3.run_rmm_cycle (upsetAfter 10) "m" dissonanceDraws).2 = false ∧
    (alookup (upsetAfter 11).memories "m").map Code3.Memory.strength
        = some (4194304 / 48828125 : ℚ) ∧
    (4194304 / 48828125 : ℚ) < 0.1 := by
  have hiter : ∀ n, upsetAfter (n + 1)
      = (Code3.run_rmm_cycle (upsetAfter n) "m" dissonanceDraws).1 := by
    intro n
    unfold upsetAfter
    rw [Function.iterate_succ_apply']
  have h0 : alookup (upsetAfter 0).memories "m"
      = some (Code3.Memory.create "m" "c" "upset" 0 1) :=
    add3_stored Code3.RMMModel.create "m" "c" "upset" 0
  have hb0 : (upsetAfter 0).ecs.baseline_modulation_strength = 0.1 := rfl
  obtain ⟨hf1, hb1, h1⟩ := upset_step (upsetAfter 0) _ h0 rfl rfl rfl rfl 0 rfl hb0 0.8 (-0.1)
    (by norm_num [Code3.Memory.create, max_def])
    (by norm_num [Code3.Memory.create, max_def, min_def])
  rw [← hiter 0] at hb1 h1
  obtain ⟨hf2, hb2, h2⟩ := upset_step (upsetAfter 1) _ h1 rfl rfl rfl rfl 1 rfl hb1 0.64 (-0.2)
    (by norm_num [max_def]) (by norm_num [max_def, min_def])
  rw [← hiter 1] at hb2 h2
  obtain ⟨hf3, hb3, h3⟩ := upset_step (upsetAfter 2) _ h2 rfl rfl rfl rfl 2 rfl hb2 0.512 (-0.3)
    (by norm_num [max_def]) (by norm_num [max_def, min_def])
  rw [← hiter 2] at hb3 h3
  obtain ⟨hf4, hb4, h4⟩ := upset_step (upsetAfter 3) _ h3 rfl rfl rfl rfl 3 rfl hb3 0.4096 (-0.4)
    (by norm_num [max_def]) (by norm_num [max_def, min_def])
  rw [← hiter 3] at hb4 h4
  obtain ⟨hf5, hb5, h5⟩ := upset_step (upsetAfter 4) _ h4 rfl rfl rfl rfl 4 rfl hb4 0.32768 (-0.5)
    (by norm_num [max_def]) (by norm_num [max_def, min_def])
  rw [← hiter 4] at hb5 h5
  obtain ⟨hf6, hb6, h6⟩ := upset_step (upsetAfter 5) _ h5 rfl rfl rfl rfl 5 rfl hb5 0.262144 (-0.6)
    (by norm_num [max_def]) (by norm_num [max_def, min_def])
  rw [← hiter 5] at hb6 h6
  obtain ⟨hf7, hb7, h7⟩ := upset_step (upsetAfter 6) _ h6 rfl rfl rfl rfl 6 rfl hb6 0.2097152 (-0.7)
    (by norm_num [max_def]) (by norm_num [max_def, min_def])
  rw [← hiter 6] at hb7 h7
  obtain ⟨hf8, hb8, h8⟩ := upset_step (upsetAfter 7) _ h7 rfl rfl rfl rfl 7 rfl hb7 0.16777216 (-0.8)
    (by norm_num [max_def]) (by norm_num [max_def, min_def])
  rw [← hiter 7] at hb8 h8
  obtain ⟨hf9, hb9, h9⟩ := upset_step (upsetAfter 8) _ h8 rfl rfl rfl rfl 8 rfl hb8 0.134217728 (-0.9)
    (by norm_num [max_def]) (by norm_num [max_def, min_def])
  rw [← hiter 8] at hb9 h9
  obtain ⟨hf10, hb10, h10⟩ := upset_step (upsetAfter 9) _ h9 rfl rfl rfl rfl 9 rfl hb9
    0.1073741824 (-1) (by norm_num [max_def]) (by norm_num [max_def, min_def])
  rw [← hiter 9] at hb10 h10
  obtain ⟨hf11, hb11, h11⟩ := upset_step (upsetAfter 10) _ h10 rfl rfl rfl rfl 10 rfl hb10
    0.08589934592 (-1) (by norm_num [max_def]) (by norm_num [max_def, min_def])
  rw [← hiter 10] at h11
  refine ⟨?_, hf11, ?_, by norm_num⟩
  · norm_num [Code3.Draws.Valid, dissonanceDraws]
  · rw [h11]
    norm_num

/-- Claim C5 (amended): the rewrite stage is a pure deterministic function of
the outcome (its embedding takes no random draws); on `inference_corrected` it
multiplies strength by 1.1 and sets valence to clamp(valence + 0.1); on
`dissonance_high` it multiplies strength by 0.8 and sets valence to
clamp(valence − 0.1); any other outcome changes nothing. Valence is clamped to
[-1, 1] (`Code.py` writes only the relevant one-sided clamp, which coincides
with the full clamp whenever the incoming valence already lies in [-1, 1], as
it does inside a cycle after `apply_modulation`); strength, however, is NOT
re-clamped to ≥ 0.1 — see the counterexample. Stated for both engines
(`Code3.py`'s rewrite also fires on the never-produced outcome
`plasticity_enhanced`). -/
theorem claim_C5 (m : Code1.Memory) (m3 : Code3.Memory) (o : String)
    (hv1 : -1 ≤ m.current_valence) (hv2 : m.current_valence ≤ 1) :
    (Code1.rewrite m "inference_corrected" =
      { m with strength := m.strength * 1.1,
               current_valence := max (-1) (min 1 (m.current_valence + 0.1)) }) ∧
    (Code1.rewrite m "dissonance_high" =
      { m with strength := m.strength * 0.8,
               current_valence := max (-1) (min 1 (m.current_valence - 0.1)) }) ∧
    (o ≠ "inference_corrected" → o ≠ "dissonance_high" → Code1.rewrite m o = m) ∧
    (Code3.rewrite_memory m3 "inference_corrected" =
      { m3 with strength := m3.strength * 1.1,
                current_valence := max (-1) (min 1 (m3.current_valence + 0.1)) }) ∧
    (Code3.rewrite_memory m3 "dissonance_high" =
      { m3 with strength := m3.strength * 0.8,
                current_valence := max (-1) (min 1 (m3.current_valence - 0.1)) }) ∧
    (o ≠ "inference_corrected" → o ≠ "plasticity_enhanced" → o ≠ "dissonance_high" →
      Code3.rewrite_memory m3 o = m3) := by
  refine ⟨?_, ?_, ?_, ?_, ?_, ?_⟩
  · have hval : max (-1 : ℚ) (min 1 (m.current_valence + 0.1))
        = min 1 (m.current_valence + 0.1) :=
      max_eq_right (le_min (by norm_num) (by linarith))
    rw [hval]
    simp [Code1.rewrite]
  · have hval : max (-1 : ℚ) (min 1 (m.current_valence - 0.1))
        = max (-1) (m.current_valence - 0.1) := by
      rw [min_eq_right (by linarith : m.current_valence - 0.1 ≤ 1)]
    rw [hval]
    simp [Code1.rewrite]
  · intro h1 h2
    simp [Code1.rewrite, h1, h2]
  · simp [Code3.rewrite_memory]
  · simp [Code3.rewrite_memory]
  · intro h1 h2 h3
    simp [Code3.rewrite_memory, h1, h2, h3]

/-- Witness for C5 at a concrete memory (valence 0, strength 0.1). -/
theorem claim_C5_witness :
    -1 ≤ lowStrengthMem.current_valence ∧ lowStrengthMem.current_valence ≤ 1 ∧
    Code1.rewrite lowStrengthMem "dissonance_high" =
      { lowStrengthMem with
        strength := lowStrengthMem.strength * 0.8,
        current_valence := max (-1) (min 1 (lowStrengthMem.current_valence - 0.1)) } := by
  have hv1 : (-1 : ℚ) ≤ lowStrengthMem.current_valence := by
    norm_num [lowStrengthMem, Code1.Memory.create]
  have hv2 : lowStrengthMem.current_valence ≤ (1 : ℚ) := by
    norm_num [lowStrengthMem, Code1.Memory.create]
  exact ⟨hv1, hv2,
    (claim_C5 lowStrengthMem (Code3.Memory.create "m" "c" "i" 0 1) "no_change" hv1 hv2).2.1⟩

/-- Counterexample to claim C5 as stated: with incoming strength exactly 0.1
and outcome `dissonance_high`, the rewrite stage produces strength 0.08,
whereas the claimed re-clamped value clamp(0.1 × 0.8) = max(0.1, 0.08) is
0.1 — the rewrite stage does not re-clamp strength to at least 0.1. -/
theorem claim_C5_counterexample :
    lowStrengthMem.strength = 0.1 ∧
    (Code1.rewrite lowStrengthMem "dissonance_high").strength = 0.08 ∧
    max 0.1 (lowStrengthMem.strength * 0.8) = 0.1 ∧
    (Code1.rewrite lowStrengthMem "dissonance_high").strength
      ≠ max 0.1 (lowStrengthMem.strength * 0.8) := by
  refine ⟨?_, ?_, ?_, ?_⟩
  · norm_num [lowStrengthMem, Code1.Memory.create]
  · simp [Code1.rewrite]
    norm_num [lowStrengthMem, Code1.Memory.create]
  · norm_num [lowStrengthMem, Code1.Memory.create, max_def]
  · simp [Code1.rewrite]
    norm_num [lowStrengthMem, Code1.Memory.create, max_def]

/-- Claim C9 (amended): re-adding an existing identifier always overwrites the
stored memory in both engines (the new memory, with the newly given content,
replaces the old binding); the `Code3.py` engine emits a duplicate warning
while the `Code.py` engine overwrites silently — it performs no duplicate
check at all — so the overwrite policy is uniform but the warning is not
applied consistently across the program, and neither engine rejects. -/
theorem claim_C9 (s : Code1.RMMModel) (s3 : Code3.RMMModel) (id c inf : String)
    (v : ℚ) (u j : ℕ → ℚ)
    (hdup : (alookup s.memories id).isSome = true)
    (hdup3 : (alookup s3.memories id).isSome = true) :
    (Code1.add_memory s id c inf v u j).2 = false ∧
    (alookup (Code1.add_memory s id c inf v u j).1.memories id).map Code1.Memory.content
        = some c ∧
    (Code3.add_memory s3 id c inf v).2 = true ∧
    (alookup (Code3.add_memory s3 id c inf v).1.memories id).map Code3.Memory.content
        = some c := by
  refine ⟨rfl, ?_, ?_, ?_⟩
  · rw [add_memory_stored]
    rfl
  · rw [add3_warned]
    exact hdup3
  · rw [add3_stored]
    rfl

/-- Witness for C9: concrete one-memory models holding identifier "a"; adding
"a" again overwrites in both engines, with a warning only from `Code3.py`. -/
theorem claim_C9_witness :
    (alookup sampleModel1.memories "a").isSome = true ∧
    (alookup sampleModel3.memories "a").isSome = true ∧
    (Code1.add_memory sampleModel1 "a" "c2" "i2" 0 halfDraws halfDraws).2 = false ∧
    (alookup (Code1.add_memory sampleModel1 "a" "c2" "i2" 0 halfDraws halfDraws).1.memories
        "a").map Code1.Memory.content = some "c2" ∧
    (Code3.add_memory sampleModel3 "a" "c2" "i2" 0).2 = true ∧
    (alookup (Code3.add_memory sampleModel3 "a" "c2" "i2" 0).1.memories "a").map
        Code3.Memory.content = some "c2" := by
  have hdup : (alookup sampleModel1.memories "a").isSome = true := by decide
  have hdup3 : (alookup sampleModel3.memories "a").isSome = true := by decide
  have h := claim_C9 sampleModel1 sampleModel3 "a" "c2" "i2" 0 halfDraws halfDraws hdup hdup3
  exact ⟨hdup, hdup3, h.1, h.2.1, h.2.2.1, h.2.2.2⟩

/-- Counterexample to claim C9 as stated: re-adding "a" to the `Code.py`
collection silently overwrites — the stored content changes from "c1" to "c2"
(so the add is not rejected) while the warning flag is false (so it does not
overwrite-with-warning); the `Code3.py` engine warns on the same operation, so
no single duplicate policy is applied consistently across the program. -/
theorem claim_C9_counterexample :
    (alookup sampleModel1.memories "a").map Code1.Memory.content = some "c1" ∧
    (Code1.add_memory sampleModel1 "a" "c2" "i2" 0 halfDraws halfDraws).2 = false ∧
    (alookup (Code1.add_memory sampleModel1 "a" "c2" "i2" 0 halfDraws halfDraws).1.memories
        "a").map Code1.Memory.content = some "c2" ∧
    (Code3.add_memory sampleModel3 "a" "c2" "i2" 0).2 = true := by
  refine ⟨by decide, rfl, by decide, by decide⟩
